import Mathlib

/-!
Shallow embedding of the CharacterNFT Solana program
(src/contracts/character/solana/program.rs) and proofs of the specified
properties of its five state-transition operations.

Machine integers are modelled as `Nat` with explicit bounds: `u64` values
carry a `< 2^64` bound where it matters, the `u128` checked arithmetic of
`transfer_from` is modelled by `Option`-returning checked operations, and
the `as u64` narrowing cast is modelled by `% 2^64`.  An operation that
would panic (a failed `unwrap` or an underflowing `u64` subtraction) is
modelled by the `TxResult.panic` outcome; `require!` failures are the
`TxResult.err` / `Except.error` outcomes carrying the program's error code.
-/

namespace CharacterNft

/-- Addresses (Solana `Pubkey`) are abstract identities; only equality is
compared by the program, so we model them as `Nat`. -/
abbrev Pubkey := Nat

/-- `u64` modulus. -/
def U64_MOD : Nat := 2 ^ 64

/-- `u128` modulus. -/
def U128_MOD : Nat := 2 ^ 128

/-- The program's error codes (`enum CharError`). -/
inductive CharError where
  | AlreadyLicensed
  | NotOwner
  | FeeTooHigh
  | InsufficientFunds
deriving DecidableEq, Repr

/-- `struct ProgramState`: the registry singleton. -/
structure ProgramState where
  platform : Pubkey
  mint_fee_lamports : Nat
  transaction_fee_bps : Nat
  next_token_id : Nat
deriving DecidableEq, Repr

/-- `struct Character`: one record per minted item. -/
structure Character where
  token_id : Nat
  creator : Pubkey
  owner : Pubkey
  created_at : Int
  stage : Nat
  metadata_uri : String
  trait_hash : List Nat
deriving DecidableEq, Repr

/-- A value-transfer instruction requested from the host
(`system_program::transfer { from, to }` with an amount). -/
structure Transfer where
  src : Pubkey
  dst : Pubkey
  amount : Nat
deriving DecidableEq, Repr

/-- The events the program emits (`emit!`). -/
inductive Event where
  | CharacterMinted (token_id : Nat) (creator : Pubkey) (trait_hash : List Nat)
  | CharacterTransferred (token_id : Nat) (sender : Pubkey) (receiver : Pubkey) (price : Nat)
  | StageAdvanced (token_id : Nat) (new_stage : Nat)
deriving DecidableEq, Repr

/-- Outcome of an instruction: success, a `require!` error, or a panic
(failed `unwrap` / arithmetic fault), which aborts the transaction. -/
inductive TxResult (α : Type) where
  | ok : α → TxResult α
  | err : CharError → TxResult α
  | panic : TxResult α
deriving DecidableEq, Repr

/-- `u128::checked_mul`: `none` on overflow past `2^128`. -/
def checked_mul_u128 (a b : Nat) : Option Nat :=
  if a * b < U128_MOD then some (a * b) else none

/-- `u128::checked_div`: `none` when the divisor is zero. -/
def checked_div_u128 (a b : Nat) : Option Nat :=
  if b = 0 then none else some (a / b)

/-- `u64` subtraction, `none` on underflow (which would abort in Rust). -/
def checked_sub_u64 (a b : Nat) : Option Nat :=
  if b ≤ a then some (a - b) else none

/-- `initialize(mint_fee_lamports, transaction_fee_bps)`: checks the fee
bound, then creates the registry state with the caller as platform and the
token counter at zero. -/
def initRegistryState (caller : Pubkey) (mint_fee_lamports : Nat)
    (transaction_fee_bps : Nat) : Except CharError ProgramState :=
  if transaction_fee_bps ≤ 10000 then
    Except.ok
      { platform := caller
        mint_fee_lamports := mint_fee_lamports
        transaction_fee_bps := transaction_fee_bps
        next_token_id := 0 }
  else
    Except.error CharError.FeeTooHigh

/-- `mint(metadata_uri, trait_hash)`: requests the mint fee transfer from
the creator to the platform when the fee is positive, creates the record
with `stage = 0`, `owner = creator`, `token_id = next_token_id`, and
increments the `u64` counter.  Returns the new registry state, the new
record, the requested transfers and the emitted event. -/
def mint (state : ProgramState) (creator : Pubkey) (now : Int)
    (metadata_uri : String) (trait_hash : List Nat) :
    ProgramState × Character × List Transfer × Event :=
  let transfers : List Transfer :=
    if 0 < state.mint_fee_lamports then
      [⟨creator, state.platform, state.mint_fee_lamports⟩]
    else []
  let character : Character :=
    { token_id := state.next_token_id
      creator := creator
      owner := creator
      created_at := now
      stage := 0
      metadata_uri := metadata_uri
      trait_hash := trait_hash }
  let state2 := { state with next_token_id := (state.next_token_id + 1) % U64_MOD }
  (state2, character, transfers,
    Event.CharacterMinted character.token_id character.creator trait_hash)

/-- The fee-split arithmetic of `transfer_from` (program lines 87-108):
`(sale_price as u128).checked_mul(fee_bps as u128).unwrap()
   .checked_div(10000).unwrap() as u64`, then the `u64` subtraction
`sale_price - platform_cut` for the seller proceeds. -/
def feeSplit (sale_price fee_bps : Nat) : TxResult (Nat × Nat) :=
  match checked_mul_u128 sale_price fee_bps with
  | none => TxResult.panic
  | some product =>
    match checked_div_u128 product 10000 with
    | none => TxResult.panic
    | some q =>
      let platform_cut := q % U64_MOD
      match checked_sub_u64 sale_price platform_cut with
      | none => TxResult.panic
      | some seller_proceeds => TxResult.ok (platform_cut, seller_proceeds)

/-- `transfer_from(sale_price_lamports)`: requires the caller to be the
record owner; for a positive sale price splits it into the platform cut
and seller proceeds and requests the corresponding transfers from the
recipient (each skipped when zero); finally reassigns ownership to the
recipient.  Returns the updated record, the requested transfers and the
emitted event. -/
def transfer_from (state : ProgramState) (character : Character)
    (caller recipient : Pubkey) (sale_price_lamports : Nat) :
    TxResult (Character × List Transfer × Event) :=
  if character.owner = caller then
    if 0 < sale_price_lamports then
      match feeSplit sale_price_lamports state.transaction_fee_bps with
      | TxResult.panic => TxResult.panic
      | TxResult.err e => TxResult.err e
      | TxResult.ok (platform_cut, seller_proceeds) =>
        TxResult.ok
          ({ character with owner := recipient },
            (if 0 < platform_cut then
              [⟨recipient, state.platform, platform_cut⟩] else []) ++
            (if 0 < seller_proceeds then
              [⟨recipient, caller, seller_proceeds⟩] else []),
            Event.CharacterTransferred character.token_id caller recipient
              sale_price_lamports)
    else
      TxResult.ok
        ({ character with owner := recipient }, [],
          Event.CharacterTransferred character.token_id caller recipient
            sale_price_lamports)
  else
    TxResult.err CharError.NotOwner

/-- `advance_stage(new_metadata_uri)`: requires the caller to be the owner
and the stage to be below 4 (Licensed); increments the stage and replaces
the metadata URI. -/
def advance_stage (character : Character) (caller : Pubkey)
    (new_metadata_uri : String) : Except CharError (Character × Event) :=
  if character.owner = caller then
    if character.stage < 4 then
      let character2 :=
        { character with
            stage := character.stage + 1
            metadata_uri := new_metadata_uri }
      Except.ok (character2, Event.StageAdvanced character2.token_id character2.stage)
    else
      Except.error CharError.AlreadyLicensed
  else
    Except.error CharError.NotOwner

/-- `set_mint_fee(new_fee_lamports)`: platform-only update of the mint fee. -/
def set_mint_fee (state : ProgramState) (caller : Pubkey)
    (new_fee_lamports : Nat) : Except CharError ProgramState :=
  if state.platform = caller then
    Except.ok { state with mint_fee_lamports := new_fee_lamports }
  else
    Except.error CharError.NotOwner

/-- `set_transaction_fee(new_fee_bps)`: platform-only update of the
basis-point fee, rejected above 10000. -/
def set_transaction_fee (state : ProgramState) (caller : Pubkey)
    (new_fee_bps : Nat) : Except CharError ProgramState :=
  if state.platform = caller then
    if new_fee_bps ≤ 10000 then
      Except.ok { state with transaction_fee_bps := new_fee_bps }
    else
      Except.error CharError.FeeTooHigh
  else
    Except.error CharError.NotOwner

/-- Registry states reachable through the program's operations:
created by a successful `initialize`, then updated only by `mint`,
`set_mint_fee` and `set_transaction_fee` (neither `transfer_from` nor
`advance_stage` writes the registry state). -/
inductive Reachable : ProgramState → Prop where
  | init (caller : Pubkey) (fee bps : Nat) (s : ProgramState) :
      initRegistryState caller fee bps = Except.ok s → Reachable s
  | mintStep (s : ProgramState) (creator : Pubkey) (now : Int)
      (uri : String) (th : List Nat) :
      Reachable s → Reachable (mint s creator now uri th).1
  | setMintFee (s : ProgramState) (caller : Pubkey) (fee : Nat)
      (s2 : ProgramState) :
      Reachable s → set_mint_fee s caller fee = Except.ok s2 → Reachable s2
  | setTxFee (s : ProgramState) (caller : Pubkey) (bps : Nat)
      (s2 : ProgramState) :
      Reachable s → set_transaction_fee s caller bps = Except.ok s2 → Reachable s2

/-- `mint` iterated `n` times from a registry state; returns the final
state and the list of token ids assigned, in call order. -/
def mintSeq (s : ProgramState) (creator : Pubkey) (now : Int)
    (uri : String) (th : List Nat) : Nat → ProgramState × List Nat
  | 0 => (s, [])
  | Nat.succ n =>
    let r := mint s creator now uri th
    let rest := mintSeq r.1 creator now uri th n
    (rest.1, r.2.1.token_id :: rest.2)

/-! ### Fee-split arithmetic lemmas -/

lemma fee_mul_lt_u128 (price bps : Nat) (hp : price < U64_MOD) (hb : bps ≤ 10000) :
    price * bps < U128_MOD := by
  have h1 : price * bps ≤ (U64_MOD - 1) * 10000 :=
    Nat.mul_le_mul (by omega) hb
  exact lt_of_le_of_lt h1 (by norm_num [U64_MOD, U128_MOD])

lemma fee_cut_le (price bps : Nat) (hb : bps ≤ 10000) :
    price * bps / 10000 ≤ price := by
  calc price * bps / 10000 ≤ price * 10000 / 10000 :=
        Nat.div_le_div_right (Nat.mul_le_mul (Nat.le_refl price) hb)
    _ = price := Nat.mul_div_cancel price (by norm_num)

lemma feeSplit_ok (price bps : Nat) (hp : price < U64_MOD) (hb : bps ≤ 10000) :
    feeSplit price bps =
      TxResult.ok (price * bps / 10000, price - price * bps / 10000) := by
  have hmul : price * bps < U128_MOD := fee_mul_lt_u128 price bps hp hb
  have hq : price * bps / 10000 ≤ price := fee_cut_le price bps hb
  have hmod : price * bps / 10000 % U64_MOD = price * bps / 10000 :=
    Nat.mod_eq_of_lt (lt_of_le_of_lt hq hp)
  simp [feeSplit, checked_mul_u128, checked_div_u128, checked_sub_u64,
    hmul, hmod, hq]

/-! ### Unfolding lemmas for `mint` and `mintSeq` -/

lemma mint_fst (s : ProgramState) (creator : Pubkey) (now : Int)
    (uri : String) (th : List Nat) :
    (mint s creator now uri th).1 =
      { s with next_token_id := (s.next_token_id + 1) % U64_MOD } := rfl

lemma mint_token_id (s : ProgramState) (creator : Pubkey) (now : Int)
    (uri : String) (th : List Nat) :
    (mint s creator now uri th).2.1.token_id = s.next_token_id := rfl

lemma mintSeq_succ (s : ProgramState) (creator : Pubkey) (now : Int)
    (uri : String) (th : List Nat) (n : Nat) :
    mintSeq s creator now uri th (n + 1) =
      ((mintSeq (mint s creator now uri th).1 creator now uri th n).1,
        (mint s creator now uri th).2.1.token_id ::
          (mintSeq (mint s creator now uri th).1 creator now uri th n).2) := rfl

/-- The token ids assigned by `n` sequential mints are consecutive,
starting at the current counter, as long as the counter does not pass
`2^64`. -/
lemma mintSeq_ids (creator : Pubkey) (now : Int) (uri : String)
    (th : List Nat) :
    ∀ (n : Nat) (s : ProgramState), s.next_token_id + n ≤ U64_MOD →
      (mintSeq s creator now uri th n).2 =
        (List.range n).map (fun i => s.next_token_id + i)
  | 0, s, _ => by simp [mintSeq]
  | Nat.succ n, s, h => by
    rcases Nat.lt_or_ge (s.next_token_id + 1) U64_MOD with hlt | hge
    · have hstep : (mint s creator now uri th).1.next_token_id =
          s.next_token_id + 1 := by
        rw [mint_fst]
        exact Nat.mod_eq_of_lt hlt
      have ih := mintSeq_ids creator now uri th n (mint s creator now uri th).1
        (by rw [hstep]; omega)
      have hfun : (fun i => s.next_token_id + 1 + i) =
          ((fun i => s.next_token_id + i) ∘ Nat.succ) :=
        funext (fun i => by simp [Function.comp]; omega)
      rw [mintSeq_succ, mint_token_id, ih, hstep, hfun,
        List.range_succ_eq_map, List.map_cons, List.map_map]
      simp
    · have hn : n = 0 := by omega
      subst hn
      rw [mintSeq_succ, mint_token_id]
      simp [mintSeq, List.range_succ]

/-! ### Claim theorems -/

/-- C1: for every u64 `sale_price` and every `fee_bps ≤ 10000`, the fee
split computed at transfer time returns `(cut, rem)` with
`cut = floor(sale_price * fee_bps / 10000)` and `cut + rem = sale_price`. -/
theorem C1_fee_split_correct (sale_price fee_bps : Nat)
    (hp : sale_price < U64_MOD) (hb : fee_bps ≤ 10000) :
    ∃ cut rem, feeSplit sale_price fee_bps = TxResult.ok (cut, rem) ∧
      cut = sale_price * fee_bps / 10000 ∧ cut + rem = sale_price := by
  refine ⟨_, _, feeSplit_ok sale_price fee_bps hp hb, rfl, ?_⟩
  have hq : sale_price * fee_bps / 10000 ≤ sale_price :=
    fee_cut_le sale_price fee_bps hb
  omega

/-- Witness for C1 at `sale_price = 1000`, `fee_bps = 500`. -/
theorem C1_fee_split_correct_witness :
    ∃ cut rem, feeSplit 1000 500 = TxResult.ok (cut, rem) ∧
      cut = 1000 * 500 / 10000 ∧ cut + rem = 1000 :=
  C1_fee_split_correct 1000 500 (by norm_num [U64_MOD]) (by norm_num)

/-- C9: for every u64 `sale_price`, given `transaction_fee_bps ≤ 10000`,
the 128-bit product does not overflow and the division succeeds (neither
checked operation returns `none`, so the unwraps cannot panic), the
quotient fits in u64 (the narrowing cast is lossless), the platform cut is
at most the sale price (the u64 subtraction cannot underflow), and hence
the fee split of `transfer_from` never panics. -/
theorem C9_fee_arith_safe (sale_price bps : Nat)
    (hp : sale_price < U64_MOD) (hb : bps ≤ 10000) :
    checked_mul_u128 sale_price bps = some (sale_price * bps) ∧
    checked_div_u128 (sale_price * bps) 10000 =
      some (sale_price * bps / 10000) ∧
    sale_price * bps / 10000 < U64_MOD ∧
    sale_price * bps / 10000 ≤ sale_price ∧
    checked_sub_u64 sale_price (sale_price * bps / 10000) =
      some (sale_price - sale_price * bps / 10000) ∧
    feeSplit sale_price bps ≠ TxResult.panic := by
  have hmul : sale_price * bps < U128_MOD := fee_mul_lt_u128 sale_price bps hp hb
  have hq : sale_price * bps / 10000 ≤ sale_price := fee_cut_le sale_price bps hb
  refine ⟨?_, ?_, lt_of_le_of_lt hq hp, hq, ?_, ?_⟩
  · simp [checked_mul_u128, hmul]
  · simp [checked_div_u128]
  · simp [checked_sub_u64, hq]
  · rw [feeSplit_ok sale_price bps hp hb]
    intro h
    exact TxResult.noConfusion h

/-- Witness for C9 at `sale_price = 2^64 - 1`, `bps = 10000`. -/
theorem C9_fee_arith_safe_witness :
    checked_mul_u128 (2 ^ 64 - 1) 10000 = some ((2 ^ 64 - 1) * 10000) ∧
    checked_div_u128 ((2 ^ 64 - 1) * 10000) 10000 =
      some ((2 ^ 64 - 1) * 10000 / 10000) ∧
    (2 ^ 64 - 1) * 10000 / 10000 < U64_MOD ∧
    (2 ^ 64 - 1) * 10000 / 10000 ≤ 2 ^ 64 - 1 ∧
    checked_sub_u64 (2 ^ 64 - 1) ((2 ^ 64 - 1) * 10000 / 10000) =
      some (2 ^ 64 - 1 - (2 ^ 64 - 1) * 10000 / 10000) ∧
    feeSplit (2 ^ 64 - 1) 10000 ≠ TxResult.panic :=
  C9_fee_arith_safe (2 ^ 64 - 1) 10000 (by norm_num [U64_MOD]) (by norm_num)

/-- C2: the invariant `transaction_fee_bps ≤ 10000` holds in every
reachable registry state: it holds after `initialize`, is re-checked by
`set_transaction_fee` before writing, and no other operation writes
`transaction_fee_bps`. -/
theorem C2_fee_bps_invariant (s : ProgramState) (h : Reachable s) :
    s.transaction_fee_bps ≤ 10000 := by
  induction h with
  | init caller fee bps s h =>
    unfold initRegistryState at h
    split at h
    · cases h
      assumption
    · cases h
  | mintStep s creator now uri th _ ih =>
    rw [mint_fst]
    exact ih
  | setMintFee s caller fee s2 _ h ih =>
    unfold set_mint_fee at h
    split at h
    · cases h
      exact ih
    · cases h
  | setTxFee s caller bps s2 _ h ih =>
    unfold set_transaction_fee at h
    split at h
    · split at h
      · cases h
        assumption
      · cases h
    · cases h

/-- Witness for C2: the state produced by `initialize(100, 500)` is
reachable and satisfies the invariant. -/
theorem C2_fee_bps_invariant_witness :
    ({ platform := 1, mint_fee_lamports := 100, transaction_fee_bps := 500,
       next_token_id := 0 } : ProgramState).transaction_fee_bps ≤ 10000 :=
  C2_fee_bps_invariant _ (Reachable.init 1 100 500 _ (by rfl))

/-- C3: starting from an initialized registry (`next_token_id = 0`),
`N ≤ 2^64` sequential mints assign token ids `0, 1, ..., N-1`, with no
gaps and no repeats, and each successful mint (below the u64 counter
limit) increments `next_token_id` by exactly one. -/
theorem C3_sequential_token_ids (s0 : ProgramState) (creator : Pubkey)
    (now : Int) (uri : String) (th : List Nat) (N : Nat)
    (h0 : s0.next_token_id = 0) (hN : N ≤ U64_MOD) :
    (mintSeq s0 creator now uri th N).2 = List.range N ∧
    (mintSeq s0 creator now uri th N).2.Nodup ∧
    (∀ s : ProgramState, s.next_token_id + 1 < U64_MOD →
      (mint s creator now uri th).1.next_token_id = s.next_token_id + 1) := by
  have hids := mintSeq_ids creator now uri th N s0 (by omega)
  rw [h0] at hids
  have hids2 : (mintSeq s0 creator now uri th N).2 = List.range N := by
    simpa using hids
  refine ⟨hids2, ?_, ?_⟩
  · rw [hids2]
    exact List.nodup_range N
  · intro s hs
    rw [mint_fst]
    exact Nat.mod_eq_of_lt hs

/-- A concrete registry state, as produced by `initialize(100, 500)` with
caller 1; used by the concrete instantiations below. -/
def sampleState : ProgramState :=
  { platform := 1
    mint_fee_lamports := 100
    transaction_fee_bps := 500
    next_token_id := 0 }

/-- Witness for C3: three mints from a fresh registry yield ids 0, 1, 2. -/
theorem C3_sequential_token_ids_witness :
    (mintSeq sampleState 7 0 "u" [] 3).2 = List.range 3 ∧
    (mintSeq sampleState 7 0 "u" [] 3).2.Nodup ∧
    (∀ s : ProgramState, s.next_token_id + 1 < U64_MOD →
      (mint s 7 0 "u" [] ).1.next_token_id = s.next_token_id + 1) :=
  C3_sequential_token_ids sampleState 7 0 "u" [] 3 rfl (by norm_num [U64_MOD])

/-- A concrete character record, as minted by caller 7 from a fresh
registry; used by the concrete instantiations below. -/
def sampleChar : Character :=
  { token_id := 0
    creator := 7
    owner := 7
    created_at := 0
    stage := 0
    metadata_uri := "u"
    trait_hash := [] }

/-- The sample character at the terminal stage 4 (Licensed). -/
def sampleCharLicensed : Character := { sampleChar with stage := 4 }

/-- C4: a `transfer_from` by the record's current owner succeeds; no
value-transfer instructions are produced when `sale_price = 0`; for a
positive sale price the platform cut is requested from the recipient to
the platform and the seller proceeds from the recipient to the previous
owner, each skipped when zero; and in all cases the record's owner
becomes the recipient. -/
theorem C4_transfer_by_owner (state : ProgramState) (c : Character)
    (caller recipient : Pubkey) (sale_price : Nat)
    (hown : c.owner = caller) (hp : sale_price < U64_MOD)
    (hb : state.transaction_fee_bps ≤ 10000) :
    ∃ c2 ts ev, transfer_from state c caller recipient sale_price =
        TxResult.ok (c2, ts, ev) ∧
      c2.owner = recipient ∧
      (sale_price = 0 → ts = []) ∧
      (0 < sale_price →
        ts = (if 0 < sale_price * state.transaction_fee_bps / 10000 then
                [⟨recipient, state.platform,
                  sale_price * state.transaction_fee_bps / 10000⟩] else []) ++
             (if 0 < sale_price -
                    sale_price * state.transaction_fee_bps / 10000 then
                [⟨recipient, caller,
                  sale_price - sale_price * state.transaction_fee_bps / 10000⟩]
              else [])) := by
  unfold transfer_from
  rw [if_pos hown]
  by_cases hz : 0 < sale_price
  · rw [if_pos hz, feeSplit_ok sale_price state.transaction_fee_bps hp hb]
    refine ⟨_, _, _, rfl, rfl, ?_, ?_⟩
    · intro h0
      omega
    · intro _
      rfl
  · rw [if_neg hz]
    refine ⟨_, _, _, rfl, rfl, ?_, ?_⟩
    · intro _
      rfl
    · intro h
      exact absurd h hz

/-- Witness for C4: owner 7 transfers to 9 at price 1000 under a 500 bps
fee. -/
theorem C4_transfer_by_owner_witness :
    ∃ c2 ts ev, transfer_from sampleState sampleChar 7 9 1000 =
        TxResult.ok (c2, ts, ev) ∧
      c2.owner = 9 ∧
      ((1000 : Nat) = 0 → ts = []) ∧
      ((0 : Nat) < 1000 →
        ts = (if 0 < 1000 * sampleState.transaction_fee_bps / 10000 then
                [⟨9, sampleState.platform,
                  1000 * sampleState.transaction_fee_bps / 10000⟩] else []) ++
             (if 0 < 1000 - 1000 * sampleState.transaction_fee_bps / 10000 then
                [⟨9, 7, 1000 - 1000 * sampleState.transaction_fee_bps / 10000⟩]
              else [])) :=
  C4_transfer_by_owner sampleState sampleChar 7 9 1000 rfl
    (by norm_num [U64_MOD]) (by norm_num [sampleState])

/-- C5: an `advance_stage` by the owner succeeds exactly when the stage is
below 4, incrementing the stage by exactly one and replacing the metadata
URI; at stage 4 (or above) it fails with `AlreadyLicensed` and returns no
updated record. -/
theorem C5_advance_stage_step (c : Character) (caller : Pubkey)
    (uri : String) (hown : c.owner = caller) :
    (c.stage < 4 →
      advance_stage c caller uri =
        Except.ok ({ c with stage := c.stage + 1, metadata_uri := uri },
          Event.StageAdvanced c.token_id (c.stage + 1))) ∧
    (¬ c.stage < 4 →
      advance_stage c caller uri = Except.error CharError.AlreadyLicensed) := by
  unfold advance_stage
  rw [if_pos hown]
  constructor
  · intro h
    rw [if_pos h]
  · intro h
    rw [if_neg h]

/-- The sample character after `advance_stage` with URI "v". -/
def sampleCharAdvanced : Character :=
  { sampleChar with
      stage := sampleChar.stage + 1
      metadata_uri := "v" }

/-- Witness for C5: advancing the sample character at stage 0 succeeds;
advancing it at stage 4 fails with `AlreadyLicensed`. -/
theorem C5_advance_stage_step_witness :
    advance_stage sampleChar 7 "v" =
      Except.ok (sampleCharAdvanced,
        Event.StageAdvanced sampleChar.token_id (sampleChar.stage + 1)) ∧
    advance_stage sampleCharLicensed 7 "v" =
      Except.error CharError.AlreadyLicensed :=
  ⟨(C5_advance_stage_step sampleChar 7 "v" rfl).1 (by decide),
   (C5_advance_stage_step sampleCharLicensed 7 "v" rfl).2 (by decide)⟩

/-- C6: a `transfer_from` by a caller who is not the record's current
owner fails with `NotOwner`: the result carries no updated record and no
value-transfer instructions. -/
theorem C6_transfer_non_owner (state : ProgramState) (c : Character)
    (caller recipient : Pubkey) (price : Nat) (h : c.owner ≠ caller) :
    transfer_from state c caller recipient price =
      TxResult.err CharError.NotOwner := by
  unfold transfer_from
  rw [if_neg h]

/-- Witness for C6: caller 8 is not the owner (7) of the sample record. -/
theorem C6_transfer_non_owner_witness :
    transfer_from sampleState sampleChar 8 9 1000 =
      TxResult.err CharError.NotOwner :=
  C6_transfer_non_owner sampleState sampleChar 8 9 1000 (by decide)

/-- C7: a successful `mint` creates a record with `stage = 0`,
`owner = creator =` the caller, `token_id =` the pre-call counter, the
given metadata URI and trait hash; it increments the counter by exactly
one (below the u64 limit), and requests the mint-fee transfer from the
caller to the platform exactly when the fee is positive. -/
theorem C7_mint_effect (s : ProgramState) (creator : Pubkey) (now : Int)
    (uri : String) (th : List Nat) (h : s.next_token_id + 1 < U64_MOD) :
    (mint s creator now uri th).2.1.stage = 0 ∧
    (mint s creator now uri th).2.1.owner = creator ∧
    (mint s creator now uri th).2.1.creator = creator ∧
    (mint s creator now uri th).2.1.token_id = s.next_token_id ∧
    (mint s creator now uri th).2.1.metadata_uri = uri ∧
    (mint s creator now uri th).2.1.trait_hash = th ∧
    (mint s creator now uri th).1.next_token_id = s.next_token_id + 1 ∧
    (mint s creator now uri th).2.2.1 =
      (if 0 < s.mint_fee_lamports then
        [⟨creator, s.platform, s.mint_fee_lamports⟩] else []) := by
  refine ⟨rfl, rfl, rfl, rfl, rfl, rfl, ?_, rfl⟩
  rw [mint_fst]
  exact Nat.mod_eq_of_lt h

/-- Witness for C7: minting by 7 on the fresh registry (fee 100). -/
theorem C7_mint_effect_witness :
    (mint sampleState 7 0 "u" [] ).2.1.stage = 0 ∧
    (mint sampleState 7 0 "u" [] ).2.1.owner = 7 ∧
    (mint sampleState 7 0 "u" [] ).2.1.creator = 7 ∧
    (mint sampleState 7 0 "u" [] ).2.1.token_id = sampleState.next_token_id ∧
    (mint sampleState 7 0 "u" [] ).2.1.metadata_uri = "u" ∧
    (mint sampleState 7 0 "u" [] ).2.1.trait_hash = [] ∧
    (mint sampleState 7 0 "u" [] ).1.next_token_id =
      sampleState.next_token_id + 1 ∧
    (mint sampleState 7 0 "u" [] ).2.2.1 =
      (if 0 < sampleState.mint_fee_lamports then
        [⟨7, sampleState.platform, sampleState.mint_fee_lamports⟩] else []) :=
  C7_mint_effect sampleState 7 0 "u" [] (by norm_num [sampleState, U64_MOD])

/-- C8: `set_transaction_fee` fails with `NotOwner` for a caller other
than the platform; for the platform it fails with `FeeTooHigh` for any
`bps > 10000` (in particular 10001) without producing a new state, and
succeeds for `bps = 10000`, after which the stored fee is 10000 and the
`transfer_from` fee split uses it (a split at 10000 bps takes the whole
price as the platform cut). -/
theorem C8_set_transaction_fee_behaviour (s : ProgramState) (caller : Pubkey)
    (bps : Nat) :
    (s.platform ≠ caller →
      set_transaction_fee s caller bps = Except.error CharError.NotOwner) ∧
    (s.platform = caller → 10000 < bps →
      set_transaction_fee s caller bps = Except.error CharError.FeeTooHigh) ∧
    (s.platform = caller →
      ∃ s2, set_transaction_fee s caller 10000 = Except.ok s2 ∧
        s2.transaction_fee_bps = 10000 ∧
        (∀ price : Nat, price < U64_MOD →
          feeSplit price s2.transaction_fee_bps = TxResult.ok (price, 0))) := by
  refine ⟨?_, ?_, ?_⟩
  · intro h
    unfold set_transaction_fee
    rw [if_neg h]
  · intro h hb
    unfold set_transaction_fee
    rw [if_pos h, if_neg (by omega)]
  · intro h
    refine ⟨{ s with transaction_fee_bps := 10000 }, ?_, rfl, ?_⟩
    · unfold set_transaction_fee
      rw [if_pos h, if_pos (by norm_num)]
    · intro price hp
      show feeSplit price 10000 = TxResult.ok (price, 0)
      rw [feeSplit_ok price 10000 hp (by norm_num)]
      have hc : price * 10000 / 10000 = price :=
        Nat.mul_div_cancel price (by norm_num)
      rw [hc, Nat.sub_self]

/-- Witness for C8: on the sample registry (platform 1), bps 10001 by the
platform is rejected, bps 10000 is accepted and reflected in the split,
and a non-platform caller is rejected. -/
theorem C8_set_transaction_fee_behaviour_witness :
    set_transaction_fee sampleState 1 10001 =
      Except.error CharError.FeeTooHigh ∧
    (∃ s2, set_transaction_fee sampleState 1 10000 = Except.ok s2 ∧
      s2.transaction_fee_bps = 10000 ∧
      (∀ price : Nat, price < U64_MOD →
        feeSplit price s2.transaction_fee_bps = TxResult.ok (price, 0))) ∧
    set_transaction_fee sampleState 2 10001 =
      Except.error CharError.NotOwner :=
  ⟨(C8_set_transaction_fee_behaviour sampleState 1 10001).2.1 rfl
      (by norm_num),
   (C8_set_transaction_fee_behaviour sampleState 1 10001).2.2 rfl,
   (C8_set_transaction_fee_behaviour sampleState 2 10001).1 (by decide)⟩

/-- C10: the admin setters modify only their own field: a successful
`set_mint_fee` changes only `mint_fee_lamports` and a successful
`set_transaction_fee` changes only `transaction_fee_bps`; `platform`,
`next_token_id` and the respective other fee field are unchanged (and
neither operation takes or returns a character record). -/
theorem C10_setter_frame (s : ProgramState) (caller : Pubkey)
    (fee bps : Nat) :
    (∀ s2, set_mint_fee s caller fee = Except.ok s2 →
      s2.mint_fee_lamports = fee ∧ s2.platform = s.platform ∧
      s2.transaction_fee_bps = s.transaction_fee_bps ∧
      s2.next_token_id = s.next_token_id) ∧
    (∀ s2, set_transaction_fee s caller bps = Except.ok s2 →
      s2.transaction_fee_bps = bps ∧ s2.platform = s.platform ∧
      s2.mint_fee_lamports = s.mint_fee_lamports ∧
      s2.next_token_id = s.next_token_id) := by
  constructor
  · intro s2 h
    unfold set_mint_fee at h
    split at h
    · cases h
      exact ⟨rfl, rfl, rfl, rfl⟩
    · cases h
  · intro s2 h
    unfold set_transaction_fee at h
    split at h
    · split at h
      · cases h
        exact ⟨rfl, rfl, rfl, rfl⟩
      · cases h
    · cases h

/-- The sample registry after `set_mint_fee(7)`. -/
def sampleMintFeeState : ProgramState :=
  { sampleState with mint_fee_lamports := 7 }

/-- The sample registry after `set_transaction_fee(42)`. -/
def sampleTxFeeState : ProgramState :=
  { sampleState with transaction_fee_bps := 42 }

/-- Witness for C10: concrete setter calls by the platform (1) on the
sample registry. -/
theorem C10_setter_frame_witness :
    (sampleMintFeeState.mint_fee_lamports = 7 ∧
     sampleMintFeeState.platform = sampleState.platform ∧
     sampleMintFeeState.transaction_fee_bps =
       sampleState.transaction_fee_bps ∧
     sampleMintFeeState.next_token_id = sampleState.next_token_id) ∧
    (sampleTxFeeState.transaction_fee_bps = 42 ∧
     sampleTxFeeState.platform = sampleState.platform ∧
     sampleTxFeeState.mint_fee_lamports = sampleState.mint_fee_lamports ∧
     sampleTxFeeState.next_token_id = sampleState.next_token_id) :=
  ⟨(C10_setter_frame sampleState 1 7 42).1 sampleMintFeeState (by rfl),
   (C10_setter_frame sampleState 1 7 42).2 sampleTxFeeState (by rfl)⟩

end CharacterNft
